import Mathlib

/-
Verification of the multi-provider AI chat gateway of the dobbyai repository.

The definitions below are a shallow embedding of src/src/core/ai-manager.js
(class AIManager) and src/src/utils/rate-limiter.js (class ExponentialBackoff).
Network calls are replaced by an oracle from call indices to outcomes, so a
chat run is a pure function from the oracle, the manager state and the request
options to a result together with an event trace (adapter calls with the key
index used, key rotations, and backoff sleeps).
-/

namespace DobbyAI

/-- The three providers the gateway knows: hard-coded in ai-manager.js. -/
inductive Provider where
  | sentient
  | openai
  | anthropic
deriving DecidableEq

/-- State of the AIManager singleton: per-provider key lists (parsed from the
environment in the constructor, lines 8-10) and current key indices
(lines 15-17), plus the default provider computed at construction (line 13). -/
structure AIManager where
  openaiKeys : List String
  anthropicKeys : List String
  sentientKeys : List String
  defaultProvider : Provider
  currentOpenAIIndex : Nat := 0
  currentAnthropicIndex : Nat := 0
  currentSentientIndex : Nat := 0
deriving DecidableEq

/-- determineDefaultProvider (ai-manager.js lines 29-36): first provider in the
fixed priority sentient, openai, anthropic that has at least one key; the
throw on line 35 is modelled by the none result. -/
def determineDefaultProvider (sentientKeys openaiKeys anthropicKeys : List String) :
    Option Provider :=
  if sentientKeys.length > 0 then some Provider.sentient
  else if openaiKeys.length > 0 then some Provider.openai
  else if anthropicKeys.length > 0 then some Provider.anthropic
  else none

/-- The AIManager constructor (lines 7-27): stores the key lists, computes the
default provider, and starts all key indices at 0.  The throw inside
determineDefaultProvider aborts construction, modelled as Except.error. -/
def mkAIManager (openaiKeys anthropicKeys sentientKeys : List String) :
    Except String AIManager :=
  match determineDefaultProvider sentientKeys openaiKeys anthropicKeys with
  | some p =>
      Except.ok { openaiKeys := openaiKeys, anthropicKeys := anthropicKeys,
                  sentientKeys := sentientKeys, defaultProvider := p }
  | none => Except.error "No AI provider API keys configured"

/-- The key list a given provider name selects inside the manager. -/
def providerKeys (m : AIManager) : Provider → List String
  | Provider.openai => m.openaiKeys
  | Provider.anthropic => m.anthropicKeys
  | Provider.sentient => m.sentientKeys

/-- Helper naming the key list of a provider before a manager is built,
used to state the default-provider selection rule. -/
def keysNamed (sentientKeys openaiKeys anthropicKeys : List String) :
    Provider → List String
  | Provider.sentient => sentientKeys
  | Provider.openai => openaiKeys
  | Provider.anthropic => anthropicKeys

/-- The current key index of a given provider. -/
def providerIndex (m : AIManager) : Provider → Nat
  | Provider.openai => m.currentOpenAIIndex
  | Provider.anthropic => m.currentAnthropicIndex
  | Provider.sentient => m.currentSentientIndex

/-- Writes the current key index of a given provider. -/
def setProviderIndex (m : AIManager) (p : Provider) (i : Nat) : AIManager :=
  match p with
  | Provider.openai => { m with currentOpenAIIndex := i }
  | Provider.anthropic => { m with currentAnthropicIndex := i }
  | Provider.sentient => { m with currentSentientIndex := i }

/-- rotateOpenAIKey (lines 57-61): no-op on an empty key list, otherwise
advances the index cyclically. -/
def rotateOpenAIKey (m : AIManager) : AIManager :=
  if m.openaiKeys.length = 0 then m
  else { m with currentOpenAIIndex := (m.currentOpenAIIndex + 1) % m.openaiKeys.length }

/-- rotateAnthropicKey (lines 63-67). -/
def rotateAnthropicKey (m : AIManager) : AIManager :=
  if m.anthropicKeys.length = 0 then m
  else { m with currentAnthropicIndex := (m.currentAnthropicIndex + 1) % m.anthropicKeys.length }

/-- rotateSentientKey (lines 69-73). -/
def rotateSentientKey (m : AIManager) : AIManager :=
  if m.sentientKeys.length = 0 then m
  else { m with currentSentientIndex := (m.currentSentientIndex + 1) % m.sentientKeys.length }

/-- Dispatch of the three rotate methods by provider name, as done in the
catch block of chat (lines 110-116). -/
def rotateKey (m : AIManager) : Provider → AIManager
  | Provider.openai => rotateOpenAIKey m
  | Provider.anthropic => rotateAnthropicKey m
  | Provider.sentient => rotateSentientKey m

/-- Iterated rotation: rotateKey applied n times to the same provider. -/
def rotateIterate (m : AIManager) (p : Provider) : Nat → AIManager
  | 0 => m
  | n + 1 => rotateKey (rotateIterate m p n) p

/-- Availability test used by the branch guards in chat (lines 96-101) and in
fallbackToAvailableProvider (lines 139-147): the client list, which has one
client per key (initializeClients, lines 38-47), is non-empty. -/
def providerAvailable (m : AIManager) (p : Provider) : Bool :=
  (providerKeys m p).length > 0

/-- Outcome of one adapter call as seen by the catch block of chat: either a
normalized success content, or a thrown error carrying an optional HTTP
status (error.status is undefined for timeouts and malformed responses). -/
inductive Outcome where
  | success (content : String)
  | failure (status : Option Nat)
deriving DecidableEq

/-- The part of the normalized result record relevant here (content and
provider fields built at lines 172-177, 201-206, 224-229). -/
structure ChatResult where
  content : String
  provider : Provider
deriving DecidableEq

/-- The two terminal throws of the gateway: line 155 in
fallbackToAvailableProvider, line 128 after the retry loop. -/
inductive ChatFailure where
  | allFallbackProvidersFailed
  | allProvidersFailed
deriving DecidableEq

/-- Observable events of a chat run: an adapter call to a provider with the
key index it uses, an actual key rotation (the logger line after the early
return in the rotate methods), or a backoff sleep in milliseconds. -/
inductive Event where
  | call (p : Provider) (keyIndex : Nat)
  | rotation (p : Provider)
  | sleep (ms : Nat)
deriving DecidableEq

/-- Threaded run state: manager state, next oracle call index, event log. -/
structure Trace where
  mgr : AIManager
  callIdx : Nat
  events : List Event
deriving DecidableEq

/-- One adapter call (chatWithOpenAI / chatWithAnthropic / chatWithSentient):
consumes one oracle outcome and logs the call with the current key index of
the called provider (getCurrentXClient, lines 75-88). -/
def recordCall (p : Provider) (s : Trace) : Trace :=
  { s with callIdx := s.callIdx + 1,
           events := s.events ++ [Event.call p (providerIndex s.mgr p)] }

/-- The key-rotation step of the catch block (lines 108-117): only a status of
exactly 429 or 401 rotates; the rotation event is logged only when the
provider actually has keys (the rotate methods return early otherwise). -/
def rotateOnError (s : Trace) (p : Provider) (status : Option Nat) : Trace :=
  if status = some 429 ∨ status = some 401 then
    { s with mgr := rotateKey s.mgr p,
             events := s.events ++
               (if providerAvailable s.mgr p then [Event.rotation p] else []) }
  else s

/-- The provider priority list hard-coded at line 135. -/
def priorityOrder : List Provider :=
  [Provider.sentient, Provider.openai, Provider.anthropic]

/-- fallbackToAvailableProvider, line 135: the priority list minus the
provider that just failed. -/
def fallbackOrder (failed : Provider) : List Provider :=
  priorityOrder.filter (fun q => q != failed)

/-- The for-of loop of fallbackToAvailableProvider (lines 137-153): one
adapter call per available provider, errors are caught and the loop
continues; line 155 throws when the list is exhausted. -/
def fallbackGo (oracle : Nat → Outcome) :
    List Provider → Trace → Except ChatFailure ChatResult × Trace
  | [], s => (Except.error ChatFailure.allFallbackProvidersFailed, s)
  | p :: rest, s =>
    if providerAvailable s.mgr p then
      match oracle s.callIdx with
      | Outcome.success c => (Except.ok ⟨c, p⟩, recordCall p s)
      | Outcome.failure _ => fallbackGo oracle rest (recordCall p s)
    else
      fallbackGo oracle rest s

/-- fallbackToAvailableProvider (lines 131-156). -/
def fallbackToAvailableProvider (oracle : Nat → Outcome) (failed : Provider)
    (s : Trace) : Except ChatFailure ChatResult × Trace :=
  fallbackGo oracle (fallbackOrder failed) s

/-- The retry loop of chat (lines 94-126).  The fuel argument counts the
remaining iterations (chat enters with fuel = maxRetries and attempt = 0);
running out of fuel is the post-loop throw at line 128.  Inside one
iteration: if the resolved provider has clients, one adapter call is made;
on failure the key is rotated for status 429/401, the last attempt falls
back (line 120-122), other attempts sleep 1000 * 2 ^ attempt ms (line 124)
and retry.  If the provider has no clients, the throw at line 103 is caught
by the same catch block (its error has no status). -/
def chatLoop (oracle : Nat → Outcome) (provider : Provider) (maxRetries : Nat) :
    Nat → Nat → Trace → Except ChatFailure ChatResult × Trace
  | 0, _, s => (Except.error ChatFailure.allProvidersFailed, s)
  | fuel + 1, attempt, s =>
    if providerAvailable s.mgr provider then
      match oracle s.callIdx with
      | Outcome.success c => (Except.ok ⟨c, provider⟩, recordCall provider s)
      | Outcome.failure status =>
        let s2 := rotateOnError (recordCall provider s) provider status
        if attempt = maxRetries - 1 then
          fallbackToAvailableProvider oracle provider s2
        else
          chatLoop oracle provider maxRetries fuel (attempt + 1)
            { s2 with events := s2.events ++ [Event.sleep (1000 * 2 ^ attempt)] }
    else
      let s1 := rotateOnError s provider none
      if attempt = maxRetries - 1 then
        fallbackToAvailableProvider oracle provider s1
      else
        chatLoop oracle provider maxRetries fuel (attempt + 1)
          { s1 with events := s1.events ++ [Event.sleep (1000 * 2 ^ attempt)] }

/-- Request options relevant to the modelled control flow and wire building
(options.provider, options.maxRetries, options.temperature). -/
structure ChatOptions where
  provider : Option Provider := none
  maxRetries : Option Nat := none
  temperature : Option ℚ := none
  maxTokens : Option Nat := none

/-- The resolution `options.maxRetries || 3` at line 92: undefined and the
falsy value 0 both yield 3. -/
def resolveMaxRetries : Option Nat → Nat
  | none => 3
  | some n => if n = 0 then 3 else n

/-- chat (lines 90-129): resolves the provider (`options.provider` with the
default provider as fallback, line 91) and maxRetries, then runs the retry
loop from attempt 0 on a fresh trace. -/
def chat (oracle : Nat → Outcome) (m : AIManager) (opts : ChatOptions) :
    Except ChatFailure ChatResult × Trace :=
  let provider := opts.provider.getD m.defaultProvider
  let maxRetries := resolveMaxRetries opts.maxRetries
  chatLoop oracle provider maxRetries maxRetries 0 ⟨m, 0, []⟩

/-- A canonical role-tagged message. -/
structure ChatMessage where
  role : String
  content : String
deriving DecidableEq

/-- chatWithAnthropic, line 187 together with line 193: the content of the
first system message, defaulting to the empty string
(`systemMessage?.content || ''`). -/
def anthropicSystemText (messages : List ChatMessage) : String :=
  match messages.find? (fun m => m.role == "system") with
  | some m => m.content
  | none => ""

/-- chatWithAnthropic, lines 188 and 194-197: the message array sent on the
wire is the non-system messages in order, with every non-assistant role
mapped to user. -/
def anthropicWireMessages (messages : List ChatMessage) : List ChatMessage :=
  (messages.filter (fun m => m.role != "system")).map
    (fun m => ⟨if m.role == "assistant" then "assistant" else "user", m.content⟩)

/-- The JavaScript idiom `x || dflt` on an optional number: undefined and the
falsy value 0 are both replaced by the default. -/
def jsNumberOr (x : Option ℚ) (dflt : ℚ) : ℚ :=
  match x with
  | none => dflt
  | some v => if v = 0 then dflt else v

/-- Temperature sent by chatWithOpenAI (line 166): `options.temperature || 0.8`. -/
def openaiWireTemperature (opts : ChatOptions) : ℚ :=
  jsNumberOr opts.temperature (4 / 5)

/-- Temperature sent by chatWithAnthropic (line 198): `options.temperature || 0.8`. -/
def anthropicWireTemperature (opts : ChatOptions) : ℚ :=
  jsNumberOr opts.temperature (4 / 5)

/-- Temperature sent by chatWithSentient (line 218): `options.temperature || 0.8`. -/
def sentientWireTemperature (opts : ChatOptions) : ℚ :=
  jsNumberOr opts.temperature (4 / 5)

/-- ExponentialBackoff (rate-limiter.js lines 50-77): delay state with the
constructor defaults initialDelay 1000, maxDelay 60000, factor 2. -/
structure ExponentialBackoff where
  initialDelay : Nat := 1000
  maxDelay : Nat := 60000
  factor : Nat := 2
  currentDelay : Nat := 1000
  attempts : Nat := 0
deriving DecidableEq

/-- ExponentialBackoff.wait (lines 59-67): the slept delay is
min(currentDelay, maxDelay); afterwards currentDelay is multiplied by the
factor and the attempt counter advances.  This class is exported by
rate-limiter.js but never imported by ai-manager.js. -/
def ExponentialBackoff.waitDelay (b : ExponentialBackoff) : Nat × ExponentialBackoff :=
  (min b.currentDelay b.maxDelay,
   { b with currentDelay := b.currentDelay * b.factor, attempts := b.attempts + 1 })

/-- Spec error classification (spec section 7): TransientError is a timeout
(no status) or a 5xx status. -/
def isTransientB : Outcome → Bool
  | Outcome.failure (some st) => decide (500 ≤ st) && decide (st < 600)
  | Outcome.failure none => true
  | Outcome.success _ => false

/-- Spec error classification (spec section 7): FatalError is a 4xx status
other than 401, 403 and 429. -/
def isFatalB : Outcome → Bool
  | Outcome.failure (some st) =>
      decide (400 ≤ st) && decide (st < 500) &&
      !(st == 401) && !(st == 403) && !(st == 429)
  | Outcome.failure none => false
  | Outcome.success _ => false

/-- Any thrown outcome, whatever its status. -/
def Outcome.isFailure : Outcome → Bool
  | Outcome.failure _ => true
  | Outcome.success _ => false

/-- A failure whose status does not trigger the rotate branch of the catch
block (anything other than exactly 429 or 401). -/
def Outcome.isNonRotatingFailure : Outcome → Bool
  | Outcome.failure (some st) => !(st == 429 || st == 401)
  | Outcome.failure none => true
  | Outcome.success _ => false

/-- Projection of a trace to the sequence of providers called. -/
def callsOf (events : List Event) : List Provider :=
  events.filterMap (fun e => match e with
    | Event.call p _ => some p
    | _ => none)

/-- Number of adapter calls to one provider in a trace. -/
def countCalls (events : List Event) (p : Provider) : Nat :=
  (callsOf events).count p

/-- Projection of a trace to the sequence of slept delays. -/
def sleepsOf (events : List Event) : List Nat :=
  events.filterMap (fun e => match e with
    | Event.sleep ms => some ms
    | _ => none)

/-! ### Trace projection lemmas -/

@[simp]
theorem callsOf_nil : callsOf [] = [] := rfl

@[simp]
theorem callsOf_append (a b : List Event) :
    callsOf (a ++ b) = callsOf a ++ callsOf b :=
  List.filterMap_append ..

@[simp]
theorem callsOf_call_single (p : Provider) (i : Nat) :
    callsOf [Event.call p i] = [p] := rfl

@[simp]
theorem callsOf_rotation_single (p : Provider) :
    callsOf [Event.rotation p] = [] := rfl

@[simp]
theorem callsOf_sleep_single (ms : Nat) :
    callsOf [Event.sleep ms] = [] := rfl

@[simp]
theorem callsOf_cons_call (p : Provider) (i : Nat) (t : List Event) :
    callsOf (Event.call p i :: t) = p :: callsOf t := rfl

@[simp]
theorem callsOf_cons_rotation (p : Provider) (t : List Event) :
    callsOf (Event.rotation p :: t) = callsOf t := rfl

@[simp]
theorem callsOf_cons_sleep (ms : Nat) (t : List Event) :
    callsOf (Event.sleep ms :: t) = callsOf t := rfl

@[simp]
theorem sleepsOf_nil : sleepsOf [] = [] := rfl

@[simp]
theorem sleepsOf_append (a b : List Event) :
    sleepsOf (a ++ b) = sleepsOf a ++ sleepsOf b :=
  List.filterMap_append ..

@[simp]
theorem sleepsOf_call_single (p : Provider) (i : Nat) :
    sleepsOf [Event.call p i] = [] := rfl

@[simp]
theorem sleepsOf_rotation_single (p : Provider) :
    sleepsOf [Event.rotation p] = [] := rfl

@[simp]
theorem sleepsOf_sleep_single (ms : Nat) :
    sleepsOf [Event.sleep ms] = [ms] := rfl

@[simp]
theorem sleepsOf_cons_call (p : Provider) (i : Nat) (t : List Event) :
    sleepsOf (Event.call p i :: t) = sleepsOf t := rfl

@[simp]
theorem sleepsOf_cons_rotation (p : Provider) (t : List Event) :
    sleepsOf (Event.rotation p :: t) = sleepsOf t := rfl

@[simp]
theorem sleepsOf_cons_sleep (ms : Nat) (t : List Event) :
    sleepsOf (Event.sleep ms :: t) = ms :: sleepsOf t := rfl

/-! ### Classification lemmas -/

theorem isNonRotatingFailure_elim (o : Outcome)
    (h : o.isNonRotatingFailure = true) :
    ∃ st, o = Outcome.failure st ∧ ¬(st = some 429 ∨ st = some 401) := by
  cases o with
  | success c => simp [Outcome.isNonRotatingFailure] at h
  | failure st =>
    refine ⟨st, rfl, ?_⟩
    cases st with
    | none => simp
    | some n =>
      simp only [Outcome.isNonRotatingFailure, Bool.not_eq_true',
        Bool.or_eq_false_iff, beq_eq_false_iff_ne, ne_eq] at h
      simp only [Option.some.injEq]
      omega

theorem isTransientB_nonRotating (o : Outcome) (h : isTransientB o = true) :
    o.isNonRotatingFailure = true := by
  cases o with
  | success c => simp [isTransientB] at h
  | failure st =>
    cases st with
    | none => rfl
    | some n =>
      simp only [isTransientB, Bool.and_eq_true, decide_eq_true_eq] at h
      simp only [Outcome.isNonRotatingFailure, Bool.not_eq_true',
        Bool.or_eq_false_iff, beq_eq_false_iff_ne, ne_eq]
      omega

theorem isFatalB_nonRotating (o : Outcome) (h : isFatalB o = true) :
    o.isNonRotatingFailure = true := by
  cases o with
  | success c => simp [isFatalB] at h
  | failure st =>
    cases st with
    | none => rfl
    | some n =>
      simp only [isFatalB, Bool.and_eq_true, decide_eq_true_eq,
        Bool.not_eq_true', beq_eq_false_iff_ne, ne_eq] at h
      simp only [Outcome.isNonRotatingFailure, Bool.not_eq_true',
        Bool.or_eq_false_iff, beq_eq_false_iff_ne, ne_eq]
      omega

theorem nonRotating_isFailure (o : Outcome) (h : o.isNonRotatingFailure = true) :
    o.isFailure = true := by
  cases o with
  | success c => simp [Outcome.isNonRotatingFailure] at h
  | failure st => rfl

theorem rotateOnError_none (s : Trace) (p : Provider) :
    rotateOnError s p none = s := by
  simp [rotateOnError]

theorem rotateOnError_of_not (s : Trace) (p : Provider) (st : Option Nat)
    (h : ¬(st = some 429 ∨ st = some 401)) :
    rotateOnError s p st = s := by
  rw [rotateOnError, if_neg h]

/-! ### Run lemmas for the fallback loop and the retry loop -/

theorem fallbackGo_allFail (oracle : Nat → Outcome)
    (hfail : ∀ i, (oracle i).isFailure = true) :
    ∀ (order : List Provider) (s : Trace),
      (fallbackGo oracle order s).1 = Except.error ChatFailure.allFallbackProvidersFailed
      ∧ (fallbackGo oracle order s).2.mgr = s.mgr
      ∧ callsOf (fallbackGo oracle order s).2.events
          = callsOf s.events ++ order.filter (fun q => providerAvailable s.mgr q)
      ∧ sleepsOf (fallbackGo oracle order s).2.events = sleepsOf s.events := by
  intro order
  induction order with
  | nil => intro s; simp [fallbackGo]
  | cons p rest ih =>
    intro s
    by_cases hav : providerAvailable s.mgr p = true
    · have hor : ∃ st, oracle s.callIdx = Outcome.failure st := by
        have hf := hfail s.callIdx
        cases hoc : oracle s.callIdx with
        | success c => rw [hoc] at hf; simp [Outcome.isFailure] at hf
        | failure st => exact ⟨st, rfl⟩
      obtain ⟨st, hst⟩ := hor
      have hgo : fallbackGo oracle (p :: rest) s = fallbackGo oracle rest (recordCall p s) := by
        simp [fallbackGo, hav, hst]
      rw [hgo]
      obtain ⟨h1, h2, h3, h4⟩ := ih (recordCall p s)
      refine ⟨h1, h2, ?_, ?_⟩
      · rw [h3]
        simp [recordCall, hav, List.filter_cons_of_pos]
      · rw [h4]; simp [recordCall]
    · have hav' : providerAvailable s.mgr p = false := by
        simpa using hav
      have hgo : fallbackGo oracle (p :: rest) s = fallbackGo oracle rest s := by
        simp [fallbackGo, hav']
      rw [hgo]
      obtain ⟨h1, h2, h3, h4⟩ := ih s
      refine ⟨h1, h2, ?_, h4⟩
      rw [h3, List.filter_cons_of_neg (by simp [hav'])]

theorem chatLoop_unavailable_run (oracle : Nat → Outcome) (p : Provider) (mr : Nat) :
    ∀ (fuel attempt : Nat) (s : Trace),
      providerAvailable s.mgr p = false →
      fuel + attempt = mr → 0 < fuel →
      chatLoop oracle p mr fuel attempt s
        = fallbackToAvailableProvider oracle p
            { s with events := s.events ++
                (List.range' attempt (fuel - 1)).map (fun a => Event.sleep (1000 * 2 ^ a)) } := by
  intro fuel
  induction fuel with
  | zero => intro attempt s _ _ hpos; exact absurd hpos (Nat.lt_irrefl 0)
  | succ f ih =>
    intro attempt s hun hsum _
    have hun' : ¬ providerAvailable s.mgr p = true := by simp [hun]
    by_cases hf : f = 0
    · subst hf
      have hat : attempt = mr - 1 := by omega
      simp only [chatLoop]
      rw [if_neg hun', rotateOnError_none, if_pos hat]
      simp [List.range']
    · obtain ⟨g, rfl⟩ := Nat.exists_eq_succ_of_ne_zero hf
      have hat : attempt ≠ mr - 1 := by omega
      have hstep : chatLoop oracle p mr (g + 1 + 1) attempt s
          = chatLoop oracle p mr (g + 1) (attempt + 1)
              { s with events := s.events ++ [Event.sleep (1000 * 2 ^ attempt)] } := by
        simp only [chatLoop]
        rw [if_neg hun', rotateOnError_none, if_neg hat]
      rw [hstep, ih (attempt + 1)
        { s with events := s.events ++ [Event.sleep (1000 * 2 ^ attempt)] } hun (by omega) (by omega)]
      simp [List.range'_succ]

theorem chatLoop_allfail_run (oracle : Nat → Outcome) (p : Provider) (mr : Nat)
    (hall : ∀ i, (oracle i).isNonRotatingFailure = true) :
    ∀ (fuel attempt : Nat) (s : Trace),
      providerAvailable s.mgr p = true →
      fuel + attempt = mr → 0 < fuel →
      ∃ s2 : Trace,
        chatLoop oracle p mr fuel attempt s = fallbackToAvailableProvider oracle p s2
        ∧ s2.mgr = s.mgr
        ∧ s2.callIdx = s.callIdx + fuel
        ∧ callsOf s2.events = callsOf s.events ++ List.replicate fuel p
        ∧ sleepsOf s2.events = sleepsOf s.events ++
            (List.range' attempt (fuel - 1)).map (fun a => 1000 * 2 ^ a) := by
  intro fuel
  induction fuel with
  | zero => intro attempt s _ _ hpos; exact absurd hpos (Nat.lt_irrefl 0)
  | succ f ih =>
    intro attempt s hav hsum _
    obtain ⟨st, hst, hrot⟩ := isNonRotatingFailure_elim _ (hall s.callIdx)
    by_cases hf : f = 0
    · subst hf
      have hat : attempt = mr - 1 := by omega
      refine ⟨recordCall p s, ?_, rfl, rfl, ?_, ?_⟩
      · simp only [chatLoop]
        rw [if_pos hav, hst]
        simp only [rotateOnError_of_not _ _ _ hrot]
        rw [if_pos hat]
      · simp [recordCall]
      · simp [recordCall, List.range']
    · obtain ⟨g, rfl⟩ := Nat.exists_eq_succ_of_ne_zero hf
      have hat : attempt ≠ mr - 1 := by omega
      have hstep : chatLoop oracle p mr (g + 1 + 1) attempt s
          = chatLoop oracle p mr (g + 1) (attempt + 1)
              { recordCall p s with events := (recordCall p s).events
                  ++ [Event.sleep (1000 * 2 ^ attempt)] } := by
        simp only [chatLoop]
        rw [if_pos hav, hst]
        simp only [rotateOnError_of_not _ _ _ hrot]
        rw [if_neg hat]
      obtain ⟨s2, heq, hmgr, hidx, hcalls, hsleeps⟩ :=
        ih (attempt + 1)
          { recordCall p s with events := (recordCall p s).events
              ++ [Event.sleep (1000 * 2 ^ attempt)] } hav (by omega) (by omega)
      refine ⟨s2, by rw [hstep, heq], hmgr, ?_, ?_, ?_⟩
      · rw [hidx]; show s.callIdx + 1 + (g + 1) = s.callIdx + (g + 1 + 1); omega
      · rw [hcalls]
        simp [recordCall, List.replicate_succ]
      · rw [hsleeps]
        simp [recordCall, List.range'_succ]

theorem chatLoop_failure_step (oracle : Nat → Outcome) (p : Provider)
    (mr fuel attempt : Nat) (s : Trace) (st : Nat)
    (hav : providerAvailable s.mgr p = true)
    (ho : oracle s.callIdx = Outcome.failure (some st))
    (hnl : attempt ≠ mr - 1) :
    chatLoop oracle p mr (fuel + 1) attempt s
      = chatLoop oracle p mr fuel (attempt + 1)
          { mgr := if st = 429 ∨ st = 401 then rotateKey s.mgr p else s.mgr,
            callIdx := s.callIdx + 1,
            events := s.events ++ [Event.call p (providerIndex s.mgr p)]
              ++ (if st = 429 ∨ st = 401 then [Event.rotation p] else [])
              ++ [Event.sleep (1000 * 2 ^ attempt)] } := by
  simp only [chatLoop]
  rw [if_pos hav, ho]
  by_cases hc : st = 429 ∨ st = 401
  · have hc' : (some st = some 429 ∨ some st = some 401) := by
      rcases hc with h | h <;> [left; right] <;> rw [h]
    simp only [rotateOnError, if_pos hc', recordCall, hav, if_pos rfl]
    rw [if_neg hnl, if_pos hc, if_pos hc]
    simp [List.append_assoc]
  · have hc' : ¬(some st = some 429 ∨ some st = some 401) := by
      simp only [Option.some.injEq]
      exact hc
    simp only [rotateOnError, if_neg hc']
    rw [if_neg hnl, if_neg hc, if_neg hc]
    simp [recordCall, List.append_assoc]

/-! ### Rotation lemmas -/

theorem providerKeys_rotateKey (m : AIManager) (p q : Provider) :
    providerKeys (rotateKey m p) q = providerKeys m q := by
  cases p <;> cases q <;>
    simp only [rotateKey, rotateOpenAIKey, rotateAnthropicKey, rotateSentientKey,
      providerKeys] <;>
    split <;> rfl

theorem providerIndex_rotateKey (m : AIManager) (p : Provider)
    (hK : 0 < (providerKeys m p).length) :
    providerIndex (rotateKey m p) p
      = (providerIndex m p + 1) % (providerKeys m p).length := by
  cases p <;>
    simp only [rotateKey, rotateOpenAIKey, rotateAnthropicKey, rotateSentientKey,
      providerKeys, providerIndex] at hK ⊢ <;>
    rw [if_neg (by omega)]

theorem providerKeys_rotateIterate (m : AIManager) (p q : Provider) :
    ∀ n, providerKeys (rotateIterate m p n) q = providerKeys m q := by
  intro n
  induction n with
  | zero => rfl
  | succ k ih =>
    show providerKeys (rotateKey (rotateIterate m p k) p) q = providerKeys m q
    rw [providerKeys_rotateKey, ih]

theorem providerIndex_rotateIterate (m : AIManager) (p : Provider)
    (hK : 0 < (providerKeys m p).length)
    (hi : providerIndex m p < (providerKeys m p).length) :
    ∀ n, providerIndex (rotateIterate m p n) p
      = (providerIndex m p + n) % (providerKeys m p).length := by
  intro n
  induction n with
  | zero =>
    show providerIndex m p = (providerIndex m p + 0) % (providerKeys m p).length
    rw [Nat.add_zero, Nat.mod_eq_of_lt hi]
  | succ k ih =>
    have hK2 : 0 < (providerKeys (rotateIterate m p k) p).length := by
      rw [providerKeys_rotateIterate]; exact hK
    show providerIndex (rotateKey (rotateIterate m p k) p) p = _
    rw [providerIndex_rotateKey _ _ hK2, ih, providerKeys_rotateIterate,
      Nat.mod_add_mod, Nat.add_assoc]

/-! ### Concrete fixtures -/

/-- An oracle whose every call succeeds with content hi. -/
def oracleOk : Nat → Outcome := fun _ => Outcome.success "hi"

/-- An oracle whose every call fails with HTTP 400 (a FatalError per spec). -/
def oracle400 : Nat → Outcome := fun _ => Outcome.failure (some 400)

/-- An oracle whose every call fails with HTTP 500 (a TransientError per spec). -/
def oracle500 : Nat → Outcome := fun _ => Outcome.failure (some 500)

/-- An oracle whose every call fails with HTTP 401 (an AuthError per spec). -/
def oracle401 : Nat → Outcome := fun _ => Outcome.failure (some 401)

/-- An oracle whose first call fails with HTTP 403 and whose second call
succeeds. -/
def oracle403succ : Nat → Outcome := fun i =>
  if i = 0 then Outcome.failure (some 403) else Outcome.success "hi"

/-- A manager with a single sentient key and nothing else. -/
def mgrSentientOnly : AIManager :=
  { openaiKeys := [], anthropicKeys := [], sentientKeys := ["k1"],
    defaultProvider := Provider.sentient }

/-- A manager with two sentient keys and nothing else. -/
def mgrSentientTwoKeys : AIManager :=
  { openaiKeys := [], anthropicKeys := [], sentientKeys := ["k1", "k2"],
    defaultProvider := Provider.sentient }

/-- A manager with one sentient key and one openai key. -/
def mgrSentientOpenai : AIManager :=
  { openaiKeys := ["k3"], anthropicKeys := [], sentientKeys := ["k1"],
    defaultProvider := Provider.sentient }

/-- A canonical conversation with one system, one user and one assistant turn. -/
def msgs3 : List ChatMessage :=
  [⟨"system", "s"⟩, ⟨"user", "u"⟩, ⟨"assistant", "a"⟩]

/-! ### C6 -/

/-- C6: default-provider resolution returns the first provider, in the fixed
priority order sentient, openai, anthropic, that has at least one configured
key, and construction fails with the configuration error exactly when no
provider has any key, before any chat call is made. -/
theorem default_provider_selection (openaiKeys anthropicKeys sentientKeys : List String) :
    determineDefaultProvider sentientKeys openaiKeys anthropicKeys
        = priorityOrder.find?
            (fun q => !(keysNamed sentientKeys openaiKeys anthropicKeys q).isEmpty)
    ∧ ((∃ e, mkAIManager openaiKeys anthropicKeys sentientKeys = Except.error e)
          ↔ sentientKeys = [] ∧ openaiKeys = [] ∧ anthropicKeys = [])
    ∧ (∀ m, mkAIManager openaiKeys anthropicKeys sentientKeys = Except.ok m →
          some m.defaultProvider
            = priorityOrder.find?
                (fun q => !(keysNamed sentientKeys openaiKeys anthropicKeys q).isEmpty)) := by
  rcases sentientKeys with _ | ⟨s, sk⟩ <;> rcases openaiKeys with _ | ⟨o, ok⟩ <;>
    rcases anthropicKeys with _ | ⟨a, ak⟩ <;>
      simp [determineDefaultProvider, mkAIManager, keysNamed, priorityOrder, List.find?]

/-- Closed instance of the C6 theorem at one openai key and nothing else. -/
theorem default_provider_selection_witness :
    determineDefaultProvider [] ["o"] []
      = priorityOrder.find? (fun q => !(keysNamed [] ["o"] [] q).isEmpty) :=
  (default_provider_selection ["o"] [] []).1

/-! ### C7 -/

/-- C7: for a provider with K keys and current index i < K, one rotation sets
the index to (i + 1) mod K, which stays in bounds; with one key (or on an
empty key list) rotation does not move the index; K consecutive rotations
return to the start and visit pairwise distinct indices before that. -/
theorem rotate_key_cycles (m : AIManager) (p : Provider)
    (hK : 0 < (providerKeys m p).length)
    (hi : providerIndex m p < (providerKeys m p).length) :
    providerIndex (rotateKey m p) p
        = (providerIndex m p + 1) % (providerKeys m p).length
    ∧ providerIndex (rotateKey m p) p < (providerKeys m p).length
    ∧ ((providerKeys m p).length = 1 →
          providerIndex (rotateKey m p) p = providerIndex m p)
    ∧ (∀ m2 : AIManager, ∀ q : Provider,
          (providerKeys m2 q).length = 0 → rotateKey m2 q = m2)
    ∧ providerIndex (rotateIterate m p ((providerKeys m p).length)) p
        = providerIndex m p
    ∧ (∀ a b : Nat, a < (providerKeys m p).length → b < (providerKeys m p).length →
          providerIndex (rotateIterate m p a) p = providerIndex (rotateIterate m p b) p →
          a = b) := by
  refine ⟨providerIndex_rotateKey m p hK, ?_, ?_, ?_, ?_, ?_⟩
  · rw [providerIndex_rotateKey m p hK]
    exact Nat.mod_lt _ hK
  · intro h1
    rw [providerIndex_rotateKey m p hK, h1]
    omega
  · intro m2 q h0
    cases q <;>
      simp only [rotateKey, rotateOpenAIKey, rotateAnthropicKey, rotateSentientKey,
        providerKeys] at h0 ⊢ <;>
      rw [if_pos h0]
  · rw [providerIndex_rotateIterate m p hK hi, Nat.add_mod_right, Nat.mod_eq_of_lt hi]
  · intro a b ha hb h
    rw [providerIndex_rotateIterate m p hK hi a,
      providerIndex_rotateIterate m p hK hi b] at h
    have hmod : Nat.ModEq ((providerKeys m p).length)
        (providerIndex m p + a) (providerIndex m p + b) := h
    have hab := hmod.add_left_cancel' (providerIndex m p)
    have : a % (providerKeys m p).length = b % (providerKeys m p).length := hab
    rwa [Nat.mod_eq_of_lt ha, Nat.mod_eq_of_lt hb] at this

/-- Closed instance of the C7 theorem on a two-key provider. -/
theorem rotate_key_cycles_witness :
    providerIndex (rotateKey mgrSentientTwoKeys Provider.sentient) Provider.sentient
      = (providerIndex mgrSentientTwoKeys Provider.sentient + 1)
          % (providerKeys mgrSentientTwoKeys Provider.sentient).length :=
  (rotate_key_cycles mgrSentientTwoKeys Provider.sentient (by decide) (by decide)).1

/-! ### C8 -/

/-- C8: for a canonical message list (at most one system entry) the Anthropic
adapter puts the system content, or the empty string when no system message
exists, into the dedicated system field; the wire message array is exactly
the non-system messages in order (same contents, same length), and every
remaining role is normalized so that each non-assistant role becomes user. -/
theorem anthropic_adapter_message_shape (messages : List ChatMessage)
    (hcanon : (messages.filter (fun m => m.role == "system")).length ≤ 1) :
    (∀ m ∈ messages, m.role = "system" → anthropicSystemText messages = m.content)
    ∧ ((∀ m ∈ messages, m.role ≠ "system") → anthropicSystemText messages = "")
    ∧ (anthropicWireMessages messages).map ChatMessage.content
        = (messages.filter (fun m => m.role != "system")).map ChatMessage.content
    ∧ (anthropicWireMessages messages).map ChatMessage.role
        = (messages.filter (fun m => m.role != "system")).map
            (fun m => if m.role == "assistant" then "assistant" else "user")
    ∧ (∀ w ∈ anthropicWireMessages messages, w.role = "assistant" ∨ w.role = "user") := by
  refine ⟨?_, ?_, ?_, ?_, ?_⟩
  · intro m hm hrole
    rw [anthropicSystemText]
    cases hfind : messages.find? (fun x => x.role == "system") with
    | none =>
      rw [List.find?_eq_none] at hfind
      exact absurd (by simp [hrole] : (m.role == "system") = true)
        (by simpa using hfind m hm)
    | some m0 =>
      have hp0 := List.find?_some hfind
      have hm0 := List.mem_of_find?_eq_some hfind
      have hmf : m ∈ messages.filter (fun x => x.role == "system") :=
        List.mem_filter.mpr ⟨hm, by simp [hrole]⟩
      have hm0f : m0 ∈ messages.filter (fun x => x.role == "system") :=
        List.mem_filter.mpr ⟨hm0, hp0⟩
      have hm0m : m0 = m := by
        rcases hl : messages.filter (fun x => x.role == "system") with _ | ⟨x, _ | ⟨y, t⟩⟩
        · rw [hl] at hmf; simp at hmf
        · rw [hl] at hmf hm0f
          simp only [List.mem_singleton] at hmf hm0f
          rw [hmf, hm0f]
        · rw [hl] at hcanon; simp at hcanon
      rw [hm0m]
  · intro hno
    rw [anthropicSystemText]
    have hnone : messages.find? (fun x => x.role == "system") = none := by
      rw [List.find?_eq_none]
      intro x hx
      simpa using hno x hx
    rw [hnone]
  · rw [anthropicWireMessages, List.map_map]
    rfl
  · rw [anthropicWireMessages, List.map_map]
    rfl
  · intro w hw
    rw [anthropicWireMessages] at hw
    obtain ⟨m, hm, rfl⟩ := List.mem_map.mp hw
    by_cases h : (m.role == "assistant") = true
    · left; simp [h]
    · right; simp [h]

/-- Closed instance of the C8 theorem on a three-turn conversation. -/
theorem anthropic_adapter_message_shape_witness :
    anthropicSystemText msgs3 = "s" :=
  (anthropic_adapter_message_shape msgs3 (by decide)).1 ⟨"system", "s"⟩ (by decide) rfl

/-! ### C10 -/

/-- C10: a requested temperature of 0, although inside the documented range
[0, 2], is replaced by the default 0.8 = 4/5 in the wire request of every
provider adapter, because 0 is falsy in the resolution expression. -/
theorem temperature_zero_replaced_by_default (opts : ChatOptions)
    (h : opts.temperature = some 0) :
    openaiWireTemperature opts = 4 / 5
    ∧ anthropicWireTemperature opts = 4 / 5
    ∧ sentientWireTemperature opts = 4 / 5
    ∧ (4 / 5 : ℚ) ≠ 0
    ∧ (0 : ℚ) ∈ Set.Icc (0 : ℚ) 2 := by
  refine ⟨?_, ?_, ?_, by norm_num, by norm_num [Set.mem_Icc]⟩ <;>
    simp [openaiWireTemperature, anthropicWireTemperature, sentientWireTemperature,
      jsNumberOr, h]

/-- Closed instance of the C10 theorem. -/
theorem temperature_zero_replaced_by_default_witness :
    openaiWireTemperature { temperature := some 0 } = 4 / 5 :=
  (temperature_zero_replaced_by_default { temperature := some 0 } rfl).1

/-! ### Chat-level run facts -/

theorem resolveMaxRetries_pos (mrOpt : Option Nat) : 0 < resolveMaxRetries mrOpt := by
  cases mrOpt with
  | none => decide
  | some n => simp only [resolveMaxRetries]; split <;> omega

theorem chat_allNonRotating_run (m : AIManager) (p : Provider) (oracle : Nat → Outcome)
    (mrOpt : Option Nat)
    (hav : providerAvailable m p = true)
    (hallnr : ∀ i, (oracle i).isNonRotatingFailure = true) :
    callsOf (chat oracle m { provider := some p, maxRetries := mrOpt }).2.events
        = List.replicate (resolveMaxRetries mrOpt) p
          ++ (fallbackOrder p).filter (fun q => providerAvailable m q)
    ∧ (chat oracle m { provider := some p, maxRetries := mrOpt }).1
        = Except.error ChatFailure.allFallbackProvidersFailed
    ∧ sleepsOf (chat oracle m { provider := some p, maxRetries := mrOpt }).2.events
        = (List.range' 0 (resolveMaxRetries mrOpt - 1)).map (fun a => 1000 * 2 ^ a) := by
  have hallf : ∀ i, (oracle i).isFailure = true :=
    fun i => nonRotating_isFailure _ (hallnr i)
  have hchat : chat oracle m { provider := some p, maxRetries := mrOpt }
      = chatLoop oracle p (resolveMaxRetries mrOpt) (resolveMaxRetries mrOpt) 0 ⟨m, 0, []⟩ := rfl
  obtain ⟨s2, heq, hmgr, hidx, hcalls, hsleeps⟩ :=
    chatLoop_allfail_run oracle p (resolveMaxRetries mrOpt) hallnr
      (resolveMaxRetries mrOpt) 0 ⟨m, 0, []⟩ hav (Nat.add_zero _) (resolveMaxRetries_pos mrOpt)
  obtain ⟨f1, f2, f3, f4⟩ := fallbackGo_allFail oracle hallf (fallbackOrder p) s2
  refine ⟨?_, ?_, ?_⟩
  · rw [hchat, heq]
    show callsOf (fallbackGo oracle (fallbackOrder p) s2).2.events = _
    rw [f3, hcalls]
    simp only [hmgr]
    simp
  · rw [hchat, heq]
    exact f1
  · rw [hchat, heq]
    show sleepsOf (fallbackGo oracle (fallbackOrder p) s2).2.events = _
    rw [f4, hsleeps]
    simp

/-! ### C1 -/

/-- C1: with maxRetries 3 on an available resolved primary provider whose
every adapter call fails with a TransientError, chat makes exactly 3 adapter
calls to that provider, then at most one call to each other configured
provider in priority order, and then raises the terminal
all-providers-failed error; moreover every chat run ends in exactly one
success or exactly one terminal error, never both, never neither. -/
theorem chat_transient_exhausts_then_falls_back (m : AIManager) (p : Provider)
    (oracle : Nat → Outcome)
    (hav : providerAvailable m p = true)
    (hall : ∀ i, isTransientB (oracle i) = true) :
    callsOf (chat oracle m { provider := some p, maxRetries := some 3 }).2.events
        = List.replicate 3 p
          ++ (fallbackOrder p).filter (fun q => providerAvailable m q)
    ∧ (chat oracle m { provider := some p, maxRetries := some 3 }).1
        = Except.error ChatFailure.allFallbackProvidersFailed
    ∧ (∀ (oracle2 : Nat → Outcome) (m2 : AIManager) (opts : ChatOptions),
        (∃ r, (chat oracle2 m2 opts).1 = Except.ok r)
        ∨ (∃ e, (chat oracle2 m2 opts).1 = Except.error e)) := by
  have h := chat_allNonRotating_run m p oracle (some 3) hav
    (fun i => isTransientB_nonRotating _ (hall i))
  refine ⟨h.1, h.2.1, ?_⟩
  intro oracle2 m2 opts
  cases h2 : (chat oracle2 m2 opts).1 with
  | ok r => exact Or.inl ⟨r, rfl⟩
  | error e => exact Or.inr ⟨e, rfl⟩

/-- Closed instance of the C1 theorem: sentient with one key always times out
with 500, openai configured as the only fallback. -/
theorem chat_transient_exhausts_then_falls_back_witness :
    callsOf (chat oracle500 mgrSentientOpenai
        { provider := some Provider.sentient, maxRetries := some 3 }).2.events
      = [Provider.sentient, Provider.sentient, Provider.sentient, Provider.openai]
    ∧ (chat oracle500 mgrSentientOpenai
        { provider := some Provider.sentient, maxRetries := some 3 }).1
      = Except.error ChatFailure.allFallbackProvidersFailed := by
  have h := chat_transient_exhausts_then_falls_back mgrSentientOpenai Provider.sentient
    oracle500 (by decide) (fun i => rfl)
  exact ⟨h.1.trans (by decide), h.2.1⟩

/-! ### C2 -/

/-- Counterexample to C2 as stated: requesting the unconfigured openai
provider does not fail fast; the run sleeps twice (backoff), then falls back
to sentient and returns its success, so no terminal unavailable error is
surfaced and a fallback call does occur. -/
theorem chat_unconfigured_provider_cx :
    (chat oracleOk mgrSentientOnly { provider := some Provider.openai }).1
        = Except.ok ⟨"hi", Provider.sentient⟩
    ∧ (chat oracleOk mgrSentientOnly { provider := some Provider.openai }).2.events
        = [Event.sleep 1000, Event.sleep 2000, Event.call Provider.sentient 0] :=
  ⟨rfl, rfl⟩

/-- C2 amended: when options.provider names a provider with zero configured
keys, chat does not fail fast; it runs through all resolved maxRetries
attempts without a single adapter call to that provider, sleeping the usual
backoff delays between attempts, and then hands the run to the fallback
chain over the remaining providers, so the unavailable-provider error never
reaches the caller. -/
theorem chat_unconfigured_provider_retries_then_falls_back (oracle : Nat → Outcome)
    (m : AIManager) (p : Provider) (mrOpt : Option Nat)
    (hun : providerAvailable m p = false) :
    chat oracle m { provider := some p, maxRetries := mrOpt }
      = fallbackToAvailableProvider oracle p
          { mgr := m, callIdx := 0,
            events := (List.range (resolveMaxRetries mrOpt - 1)).map
                (fun a => Event.sleep (1000 * 2 ^ a)) } := by
  have hchat : chat oracle m { provider := some p, maxRetries := mrOpt }
      = chatLoop oracle p (resolveMaxRetries mrOpt) (resolveMaxRetries mrOpt) 0 ⟨m, 0, []⟩ := rfl
  rw [hchat, chatLoop_unavailable_run oracle p (resolveMaxRetries mrOpt)
    (resolveMaxRetries mrOpt) 0 ⟨m, 0, []⟩ hun (Nat.add_zero _) (resolveMaxRetries_pos mrOpt),
    List.range_eq_range']
  simp

/-- Closed instance of the C2 amended theorem. -/
theorem chat_unconfigured_provider_retries_then_falls_back_witness :
    chat oracleOk mgrSentientOnly { provider := some Provider.openai, maxRetries := some 3 }
      = fallbackToAvailableProvider oracleOk Provider.openai
          ⟨mgrSentientOnly, 0, [Event.sleep 1000, Event.sleep 2000]⟩ := by
  have h := chat_unconfigured_provider_retries_then_falls_back oracleOk mgrSentientOnly
    Provider.openai (some 3) (by decide)
  exact h.trans (congrArg (fallbackToAvailableProvider oracleOk Provider.openai) (by decide))

/-! ### C3 -/

/-- Counterexample to C3 as stated: with a FatalError (HTTP 400) on every
call and maxRetries 3, the primary provider receives 3 calls, not 1, before
fallback begins. -/
theorem chat_fatal_error_cx :
    callsOf (chat oracle400 mgrSentientOpenai {}).2.events
        = [Provider.sentient, Provider.sentient, Provider.sentient, Provider.openai]
    ∧ countCalls (chat oracle400 mgrSentientOpenai {}).2.events Provider.sentient = 3
    ∧ ¬ countCalls (chat oracle400 mgrSentientOpenai {}).2.events Provider.sentient = 1 := by
  refine ⟨?_, ?_, ?_⟩ <;> decide

/-- C3 amended: a FatalError does not abort the attempt loop early; it is
handled like any other failure, so a FatalError on every attempt with
maxRetries 3 yields exactly 3 calls to the primary provider (with backoff
sleeps in between) before the fallback chain starts. -/
theorem chat_fatal_error_still_retries (m : AIManager) (p : Provider)
    (oracle : Nat → Outcome)
    (hav : providerAvailable m p = true)
    (hall : ∀ i, isFatalB (oracle i) = true) :
    callsOf (chat oracle m { provider := some p, maxRetries := some 3 }).2.events
        = List.replicate 3 p
          ++ (fallbackOrder p).filter (fun q => providerAvailable m q)
    ∧ (chat oracle m { provider := some p, maxRetries := some 3 }).1
        = Except.error ChatFailure.allFallbackProvidersFailed := by
  have h := chat_allNonRotating_run m p oracle (some 3) hav
    (fun i => isFatalB_nonRotating _ (hall i))
  exact ⟨h.1, h.2.1⟩

/-- Closed instance of the C3 amended theorem. -/
theorem chat_fatal_error_still_retries_witness :
    callsOf (chat oracle400 mgrSentientOpenai
        { provider := some Provider.sentient, maxRetries := some 3 }).2.events
      = [Provider.sentient, Provider.sentient, Provider.sentient, Provider.openai] := by
  have h := chat_fatal_error_still_retries mgrSentientOpenai Provider.sentient
    oracle400 (by decide) (fun i => rfl)
  exact h.1.trans (by decide)

/-! ### C4 -/

/-- Counterexample to C4 as stated: a 403 AuthError on the first attempt
triggers no rotation (the second call still uses key index 0 and the index
stays 0) and a backoff sleep of 1000 ms does occur before the next attempt. -/
theorem chat_auth_rotation_cx :
    (chat oracle403succ mgrSentientTwoKeys {}).2.events
        = [Event.call Provider.sentient 0, Event.sleep 1000, Event.call Provider.sentient 0]
    ∧ (chat oracle403succ mgrSentientTwoKeys {}).2.mgr.currentSentientIndex = 0
    ∧ (chat oracle403succ mgrSentientTwoKeys {}).1 = Except.ok ⟨"hi", Provider.sentient⟩ :=
  ⟨rfl, rfl, rfl⟩

/-- C4 amended: on a non-final failing attempt the key is rotated exactly
when the status is 429 or 401 (in particular not on 403), and in either case
the exponential backoff sleep of 1000 * 2 ^ attempt ms still runs before the
next attempt; there is no delay-free path after rotation. -/
theorem chat_rotation_only_401_429_with_backoff (oracle : Nat → Outcome) (p : Provider)
    (mr fuel attempt : Nat) (s : Trace) (st : Nat)
    (hav : providerAvailable s.mgr p = true)
    (ho : oracle s.callIdx = Outcome.failure (some st))
    (hnl : attempt ≠ mr - 1) :
    chatLoop oracle p mr (fuel + 1) attempt s
      = chatLoop oracle p mr fuel (attempt + 1)
          { mgr := if st = 429 ∨ st = 401 then rotateKey s.mgr p else s.mgr,
            callIdx := s.callIdx + 1,
            events := s.events ++ [Event.call p (providerIndex s.mgr p)]
              ++ (if st = 429 ∨ st = 401 then [Event.rotation p] else [])
              ++ [Event.sleep (1000 * 2 ^ attempt)] } :=
  chatLoop_failure_step oracle p mr fuel attempt s st hav ho hnl

/-- Closed instance of the C4 amended theorem: a 401 rotates and still
sleeps 1000 ms. -/
theorem chat_rotation_only_401_429_with_backoff_witness :
    chatLoop oracle401 Provider.sentient 3 3 0 ⟨mgrSentientTwoKeys, 0, []⟩
      = chatLoop oracle401 Provider.sentient 3 2 1
          ⟨rotateKey mgrSentientTwoKeys Provider.sentient, 1,
           [Event.call Provider.sentient 0, Event.rotation Provider.sentient,
            Event.sleep 1000]⟩ := by
  have h := chat_rotation_only_401_429_with_backoff oracle401 Provider.sentient 3 2 0
    ⟨mgrSentientTwoKeys, 0, []⟩ 401 (by decide) rfl (by decide)
  exact h.trans (congrArg (chatLoop oracle401 Provider.sentient 3 2 1) (by decide))

/-! ### C5 -/

/-- Counterexample to C5 as stated: with maxRetries 8 and permanent 500
failures, the sleep before attempt 7 is 64000 ms, while the claimed formula
min(1000 * 2 ^ 6, 60000) gives 60000 ms, a delay that never occurs in the
trace; the waited delay therefore exceeds the 60000 ms cap. -/
theorem chat_backoff_uncapped_cx :
    Event.sleep 64000 ∈ (chat oracle500 mgrSentientOnly
        { provider := some Provider.sentient, maxRetries := some 8 }).2.events
    ∧ min (1000 * 2 ^ 6) 60000 = 60000
    ∧ Event.sleep (min (1000 * 2 ^ 6) 60000) ∉ (chat oracle500 mgrSentientOnly
        { provider := some Provider.sentient, maxRetries := some 8 }).2.events := by
  refine ⟨?_, ?_, ?_⟩ <;> decide

/-- C5 amended: before each next attempt after a TransientError, chat waits
exactly 1000 * 2 ^ attempt ms with no maxDelay cap: the retry loop computes
the delay inline and does not use ExponentialBackoff.wait, whose delay would
be capped at maxDelay. -/
theorem chat_backoff_formula_uncapped (m : AIManager) (p : Provider)
    (oracle : Nat → Outcome) (mrOpt : Option Nat)
    (hav : providerAvailable m p = true)
    (hall : ∀ i, isTransientB (oracle i) = true) :
    sleepsOf (chat oracle m { provider := some p, maxRetries := mrOpt }).2.events
        = (List.range (resolveMaxRetries mrOpt - 1)).map (fun a => 1000 * 2 ^ a)
    ∧ (∀ b : ExponentialBackoff, (ExponentialBackoff.waitDelay b).1 ≤ b.maxDelay) := by
  refine ⟨?_, fun b => min_le_right _ _⟩
  have h := (chat_allNonRotating_run m p oracle mrOpt hav
    (fun i => isTransientB_nonRotating _ (hall i))).2.2
  rw [List.range_eq_range']
  exact h

/-- Closed instance of the C5 amended theorem: seven uncapped doubling
delays, the last one 64000 ms, above the 60000 ms cap of the spec formula. -/
theorem chat_backoff_formula_uncapped_witness :
    sleepsOf (chat oracle500 mgrSentientOnly
        { provider := some Provider.sentient, maxRetries := some 8 }).2.events
      = [1000, 2000, 4000, 8000, 16000, 32000, 64000] := by
  have h := (chat_backoff_formula_uncapped mgrSentientOnly Provider.sentient oracle500
    (some 8) (by decide) (fun i => rfl)).1
  exact h.trans (by decide)

end DobbyAI
